import Mathlib

/-!
Verification of the zombie-detection core of the hisyotan backend:
the detection-history confirmation stage, the notification arbiter,
the confirm-tier reaction dispatcher, the performance governor, the
monitoring loop's control flow, and the immediate-tier voice reaction.

Each definition is a shallow embedding of the corresponding Python
code under backend/app/modules/zombie and backend/app/voice.
Times and probabilities are modelled as rationals, counts as naturals.
-/

namespace Hisyotan

/-! ## Detection History Tracker
Embeds the history window of ZombieDetector (detector_core.py):
`self.detection_history.append(count)`,
`self.detection_history = self.detection_history[-self.history_size:]`,
confirmation condition
`sum(1 for c in self.detection_history if c > 0) >= self.required_consecutive_detections`.
-/

/-- Python list slice `lst[-n:]`: for `n = 0` the whole list (since `-0 == 0`),
otherwise the last `n` elements. -/
def pySliceLast (n : Nat) (l : List Nat) : List Nat :=
  if n = 0 then l else (l.reverse.take n).reverse

/-- Embeds `sum(1 for c in lst if c > 0)`: the number of nonzero entries. -/
def countDetected (l : List Nat) : Nat :=
  (l.filter (fun c => decide (0 < c))).length

/-- Window parameters set in `ZombieDetector.__init__`. -/
structure HistoryConfig where
  history_size : Nat
  required_consecutive_detections : Nat
deriving DecidableEq, Repr

/-- The defaults: `self.history_size = 3`,
`self.required_consecutive_detections = 1`. -/
def defaultHistoryConfig : HistoryConfig :=
  { history_size := 3, required_consecutive_detections := 1 }

/-- One record step of the history tracker: append the new count, keep the
last `history_size` entries, and report whether the number of nonzero
entries in the retained window reaches `required_consecutive_detections`. -/
def recordDetection (cfg : HistoryConfig) (history : List Nat) (count : Nat) :
    List Nat × Bool :=
  let h := pySliceLast cfg.history_size (history ++ [count])
  (h, decide (cfg.required_consecutive_detections ≤ countDetected h))

/-- The tracker's stored window after processing a whole sequence of
per-frame counts, starting from the empty history. -/
def historyAfter (cfg : HistoryConfig) (counts : List Nat) : List Nat :=
  counts.foldl (fun h c => (recordDetection cfg h c).1) []

theorem pySliceLast_append (n : Nat) (hn : 0 < n) (l : List Nat) (c : Nat) :
    pySliceLast n (pySliceLast n l ++ [c]) = pySliceLast n (l ++ [c]) := by
  unfold pySliceLast
  simp only [if_neg (Nat.pos_iff_ne_zero.mp hn)]
  have h1 : ∀ (m : List Nat), (m ++ [c]).reverse = c :: m.reverse := by
    intro m; simp
  rw [h1, h1]
  simp only [List.reverse_reverse]
  cases n with
  | zero => omega
  | succ k =>
    simp [List.take_take, Nat.min_def]

theorem countDetected_reverse (l : List Nat) :
    countDetected l.reverse = countDetected l := by
  unfold countDetected
  rw [List.filter_reverse, List.length_reverse]

theorem historyAfter_eq_slice (cfg : HistoryConfig)
    (hn : 0 < cfg.history_size) (counts : List Nat) :
    historyAfter cfg counts = pySliceLast cfg.history_size counts := by
  induction counts using List.reverseRecOn with
  | nil => simp [historyAfter, pySliceLast]
  | append_singleton l c ih =>
    unfold historyAfter at ih ⊢
    rw [List.foldl_append]
    simp only [List.foldl_cons, List.foldl_nil]
    rw [ih]
    show (recordDetection cfg (pySliceLast cfg.history_size l) c).1 =
      pySliceLast cfg.history_size (l ++ [c])
    unfold recordDetection
    simp only
    exact pySliceLast_append cfg.history_size hn l c

/-- C1. After each record, the tracker confirms iff the number of nonzero
counts among the last `history_size` retained entries is at least
`required_consecutive_detections`; with the defaults (N = 3, required = 1),
recording a single nonzero count always confirms. -/
theorem history_tracker_confirms_iff (cfg : HistoryConfig)
    (hn : 0 < cfg.history_size) (counts : List Nat) (c : Nat) :
    ((recordDetection cfg (historyAfter cfg counts) c).2 = true ↔
      cfg.required_consecutive_detections ≤
        countDetected (pySliceLast cfg.history_size (counts ++ [c]))) ∧
    (0 < c →
      (recordDetection defaultHistoryConfig
        (historyAfter defaultHistoryConfig counts) c).2 = true) := by
  constructor
  · rw [historyAfter_eq_slice cfg hn counts]
    unfold recordDetection
    simp only [decide_eq_true_eq]
    rw [pySliceLast_append cfg.history_size hn counts c]
  · intro hc
    rw [historyAfter_eq_slice defaultHistoryConfig (by decide) counts]
    unfold recordDetection
    simp only [decide_eq_true_eq]
    rw [pySliceLast_append defaultHistoryConfig.history_size (by decide) counts c]
    unfold pySliceLast
    simp only [if_neg (by decide : ¬ (defaultHistoryConfig.history_size = 0))]
    rw [countDetected_reverse]
    have h1 : (counts ++ [c]).reverse = c :: counts.reverse := by simp
    rw [h1]
    show defaultHistoryConfig.required_consecutive_detections ≤
      countDetected (List.take 3 (c :: counts.reverse))
    simp only [List.take_succ_cons]
    unfold countDetected
    rw [List.filter_cons_of_pos (by simpa using hc)]
    simp [defaultHistoryConfig]

/-- Concrete instantiation of the history-tracker theorem: after the count
sequence [0, 2], recording 1 more nonzero frame confirms under the default
configuration. -/
theorem history_tracker_confirms_iff_witness :
    (recordDetection defaultHistoryConfig
      (historyAfter defaultHistoryConfig [0, 2]) 1).2 = true :=
  (history_tracker_confirms_iff defaultHistoryConfig (by decide) [0, 2] 1).2
    (by decide)

/-! ## Notification Arbiter
Embeds NotificationManager (notification.py). Dictionaries are embedded
as association lists observed through lookup; times are rationals. -/

/-- Constant `GLOBAL_NOTIFICATION_INTERVAL = 5` (notification.py, module level). -/
def GLOBAL_NOTIFICATION_INTERVAL : ℚ := 5

/-- Constant `self.min_source_interval = 1.0`. -/
def min_source_interval : ℚ := 1

/-- Lookup `self.type_cooldown.get(detection_type, 20.0)` over
`{"many": 30.0, "warning": 40.0, "few": 30.0}`. -/
def typeCooldown (detection_type : String) : ℚ :=
  if detection_type = "many" then 30
  else if detection_type = "warning" then 40
  else if detection_type = "few" then 30
  else 20

/-- Dictionary lookup (`d[k]` / `k in d`) on an association list. -/
def lookupTime (m : List (String × ℚ)) (k : String) : Option ℚ :=
  (m.find? (fun p => p.1 = k)).map Prod.snd

/-- Dictionary update `d[k] = v`. -/
def insertTime (m : List (String × ℚ)) (k : String) (v : ℚ) :
    List (String × ℚ) :=
  (k, v) :: m.filter (fun p => ¬ p.1 = k)

/-- The mutable state of NotificationManager plus the module-level
`last_global_notification_time`. -/
structure ArbiterState where
  notification_active : Bool
  last_notification_time : ℚ
  notification_id : Nat
  last_notification_by_type : List (String × ℚ)
  active_sources : List String
  audio_playing : Bool
  audio_play_start_time : ℚ
  estimated_audio_duration : ℚ
  last_source_time : List (String × ℚ)
  last_global_notification_time : ℚ
deriving DecidableEq, Repr

/-- The state built in `NotificationManager.__init__`. -/
def initialArbiterState : ArbiterState :=
  { notification_active := false
    last_notification_time := 0
    notification_id := 0
    last_notification_by_type := [("many", 0), ("warning", 0), ("few", 0)]
    active_sources := []
    audio_playing := false
    audio_play_start_time := 0
    estimated_audio_duration := 0
    last_source_time := []
    last_global_notification_time := 0 }

/-- Check 3 of `try_acquire_notification`: the same source acquired within
`min_source_interval` (`source in self.last_source_time` and
`current_time - self.last_source_time[source] < self.min_source_interval`). -/
def sourceBlocked (s : ArbiterState) (now : ℚ) (source : String) : Bool :=
  match lookupTime s.last_source_time source with
  | some t => decide (now - t < min_source_interval)
  | none => false

/-- Check 5 of `try_acquire_notification`: `detection_type` truthy
(non-empty), present in `last_notification_by_type`, and its cooldown not
yet elapsed. -/
def tierBlocked (s : ArbiterState) (now : ℚ)
    (detection_type : Option String) : Bool :=
  match detection_type with
  | some d =>
      if d = "" then false
      else
        match lookupTime s.last_notification_by_type d with
        | some last_type_time =>
            decide (now - last_type_time < typeCooldown d)
        | none => false
  | none => false

/-- Python truthiness of the optional `detection_type` string. -/
def truthyType (detection_type : Option String) : Bool :=
  match detection_type with
  | some d => decide (¬ d = "")
  | none => false

/-- Embeds `NotificationManager.try_acquire_notification(zombie_count, source,
detection_type)`, returning `(granted, notification_id)` and the state
after the call. The admission checks appear in the source's order:
global interval, active lease, same-source interval, estimated audio
playback window (clearing `audio_playing` when the window has elapsed),
tier cooldown; then the grant commits all timestamps. -/
def tryAcquireNotification (s : ArbiterState) (now : ℚ) (zombie_count : Nat)
    (source : String) (detection_type : Option String) :
    (Bool × Nat) × ArbiterState :=
  if now - s.last_notification_time < GLOBAL_NOTIFICATION_INTERVAL then
    ((false, 0), s)
  else if s.notification_active then ((false, 0), s)
  else if sourceBlocked s now source then ((false, 0), s)
  else if s.audio_playing ∧
      now - s.audio_play_start_time < s.estimated_audio_duration then
    ((false, 0), s)
  else
    let s1 := if s.audio_playing then { s with audio_playing := false } else s
    if tierBlocked s1 now detection_type then ((false, 0), s1)
    else
      let s2 : ArbiterState :=
        { s1 with
          notification_active := true
          last_notification_time := now
          last_source_time := insertTime s1.last_source_time source now
          last_notification_by_type :=
            match detection_type with
            | some d =>
                if d = "" then s1.last_notification_by_type
                else insertTime s1.last_notification_by_type d now
            | none => s1.last_notification_by_type
          active_sources :=
            if source ∈ s1.active_sources then s1.active_sources
            else source :: s1.active_sources
          last_global_notification_time := now
          notification_id := s1.notification_id + 1 }
      ((true, s2.notification_id), s2)

/-- Embeds `NotificationManager.release_notification(notification_id, source)`:
if a lease is active, clear it and drop the source from `active_sources`,
returning True; otherwise a no-op returning False. The id is not consulted. -/
def releaseNotification (s : ArbiterState) (notification_id : Nat)
    (source : String) : Bool × ArbiterState :=
  if s.notification_active then
    (true,
      { s with
        notification_active := false
        active_sources := s.active_sources.filter (fun x => ¬ x = source) })
  else (false, s)

/-- A sequence of `try_acquire_notification` calls
(time, count, source, type), collecting the granted flags. -/
def runTryAcquires (s : ArbiterState) :
    List (ℚ × Nat × String × Option String) → List Bool × ArbiterState
  | [] => ([], s)
  | (now, c, src, dt) :: rest =>
      ((tryAcquireNotification s now c src dt).1.1 ::
          (runTryAcquires (tryAcquireNotification s now c src dt).2 rest).1,
        (runTryAcquires (tryAcquireNotification s now c src dt).2 rest).2)

/-- C2. While a lease is held (`notification_active` is true), every
`try_acquire_notification` call is denied and leaves the state unchanged,
whatever its time, count, source or tier; hence any sequence of such calls
without an intervening release is denied throughout and the lease stays
held. -/
theorem arbiter_single_lease (s : ArbiterState)
    (h : s.notification_active = true) :
    (∀ (now : ℚ) (c : Nat) (src : String) (dt : Option String),
      tryAcquireNotification s now c src dt = ((false, 0), s)) ∧
    (∀ calls, (∀ b ∈ (runTryAcquires s calls).1, b = false) ∧
      (runTryAcquires s calls).2 = s) := by
  have hsingle : ∀ (now : ℚ) (c : Nat) (src : String) (dt : Option String),
      tryAcquireNotification s now c src dt = ((false, 0), s) := by
    intro now c src dt
    unfold tryAcquireNotification
    by_cases h1 : now - s.last_notification_time < GLOBAL_NOTIFICATION_INTERVAL
    · simp [h1]
    · simp [h1, h]
  refine ⟨hsingle, ?_⟩
  intro calls
  induction calls with
  | nil => simp [runTryAcquires]
  | cons hd tl ih =>
    obtain ⟨now, c, src, dt⟩ := hd
    simp only [runTryAcquires, hsingle now c src dt]
    refine ⟨?_, ih.2⟩
    intro b hb
    rcases List.mem_cons.mp hb with hb | hb
    · exact hb
    · exact ih.1 b hb

/-- A state holding a lease (id 1, granted to source "detector" at t=100). -/
def heldLeaseState : ArbiterState :=
  { initialArbiterState with
    notification_active := true
    last_notification_time := 100
    notification_id := 1
    active_sources := ["detector"]
    last_source_time := [("detector", 100)]
    last_global_notification_time := 100 }

/-- Concrete instantiation of the single-lease theorem: from a held-lease
state, two acquisition attempts from different sources are both denied and
the state is unchanged afterwards. -/
theorem arbiter_single_lease_witness :
    (∀ b ∈ (runTryAcquires heldLeaseState
        [(200, 3, "detector", some "many"), (300, 12, "manual", none)]).1,
      b = false) ∧
    (runTryAcquires heldLeaseState
        [(200, 3, "detector", some "many"), (300, 12, "manual", none)]).2 =
      heldLeaseState :=
  (arbiter_single_lease heldLeaseState rfl).2
    [(200, 3, "detector", some "many"), (300, 12, "manual", none)]

/-- C3. The admission checks of `try_acquire_notification` are evaluated in
the source's order — (1) global minimum interval, (2) lease already active,
(3) same-source minimum interval, (4) estimated playback window (clearing
the stale `audio_playing` flag when the window has elapsed), (5) tier
cooldown — and every failing check denies with result `(false, 0)`, the
state unchanged except for the check-4 clearing of a stale playback flag. -/
theorem try_acquire_check_order (s : ArbiterState) (now : ℚ) (c : Nat)
    (src : String) (dt : Option String) :
    (now - s.last_notification_time < GLOBAL_NOTIFICATION_INTERVAL →
      tryAcquireNotification s now c src dt = ((false, 0), s)) ∧
    (¬ now - s.last_notification_time < GLOBAL_NOTIFICATION_INTERVAL →
      s.notification_active = true →
      tryAcquireNotification s now c src dt = ((false, 0), s)) ∧
    (¬ now - s.last_notification_time < GLOBAL_NOTIFICATION_INTERVAL →
      s.notification_active = false → sourceBlocked s now src = true →
      tryAcquireNotification s now c src dt = ((false, 0), s)) ∧
    (¬ now - s.last_notification_time < GLOBAL_NOTIFICATION_INTERVAL →
      s.notification_active = false → sourceBlocked s now src = false →
      s.audio_playing = true →
      now - s.audio_play_start_time < s.estimated_audio_duration →
      tryAcquireNotification s now c src dt = ((false, 0), s)) ∧
    (¬ now - s.last_notification_time < GLOBAL_NOTIFICATION_INTERVAL →
      s.notification_active = false → sourceBlocked s now src = false →
      ¬ (s.audio_playing = true ∧
          now - s.audio_play_start_time < s.estimated_audio_duration) →
      tierBlocked s now dt = true →
      tryAcquireNotification s now c src dt = ((false, 0),
        if s.audio_playing then { s with audio_playing := false } else s)) := by
  have htier : tierBlocked { s with audio_playing := false } now dt
      = tierBlocked s now dt := rfl
  refine ⟨?_, ?_, ?_, ?_, ?_⟩
  · intro h1
    unfold tryAcquireNotification
    simp [h1]
  · intro h1 h2
    unfold tryAcquireNotification
    simp [h1, h2]
  · intro h1 h2 h3
    unfold tryAcquireNotification
    simp [h1, h2, h3]
  · intro h1 h2 h3 h4 h5
    unfold tryAcquireNotification
    simp [h1, h2, h3, h4, h5]
  · intro h1 h2 h3 h4 h5
    unfold tryAcquireNotification
    by_cases ha : s.audio_playing = true
    · simp [h1, h2, h3, ha, (by simpa [ha] using h4 :
        ¬ now - s.audio_play_start_time < s.estimated_audio_duration),
        htier, h5]
      exact h5
    · simp only [Bool.not_eq_true] at ha
      simp [h1, h2, h3, ha, h5]

/-- Concrete instantiation of the check-order theorem: with the last grant
2 seconds ago, a fresh acquisition is denied with no state change. -/
theorem try_acquire_check_order_witness :
    tryAcquireNotification heldLeaseState 102 3 "detector" (some "many") =
      ((false, 0), heldLeaseState) :=
  (try_acquire_check_order heldLeaseState 102 3 "detector" (some "many")).1
    (by norm_num [heldLeaseState, initialArbiterState,
      GLOBAL_NOTIFICATION_INTERVAL])

/-- C4 counterexample: from a state holding lease id 1, releasing id 42 —
an id that was never granted — is not a no-op: it clears the active lease,
so the state changes. -/
theorem release_unknown_id_not_noop :
    (releaseNotification heldLeaseState 42 "manual").2.notification_active
        = false ∧
    heldLeaseState.notification_active = true := by
  constructor
  · rfl
  · rfl

/-- C4 amended: `release_notification` ignores the id. Releasing while no
lease is held (in particular, an already-released id) is a no-op returning
False; any release leaves the arbiter Idle (`notification_active = false`),
so a release never creates a lease; and releasing twice is equivalent to
releasing once (the second release is a no-op). -/
theorem release_idempotent_amended (s : ArbiterState) (nid : Nat)
    (src : String) :
    (s.notification_active = false →
      releaseNotification s nid src = (false, s)) ∧
    ((releaseNotification s nid src).2.notification_active = false) ∧
    (releaseNotification (releaseNotification s nid src).2 nid src =
      (false, (releaseNotification s nid src).2)) := by
  by_cases h : s.notification_active = true
  · refine ⟨?_, ?_, ?_⟩
    · intro hfalse
      rw [h] at hfalse
      exact absurd hfalse (by decide)
    · unfold releaseNotification
      simp [h]
    · unfold releaseNotification
      simp [h]
  · simp only [Bool.not_eq_true] at h
    refine ⟨?_, ?_, ?_⟩
    · intro _
      unfold releaseNotification
      simp [h]
    · unfold releaseNotification
      simp [h]
    · unfold releaseNotification
      simp [h]

/-- Concrete instantiation of the amended release theorem: releasing on the
freshly initialised (Idle) arbiter is a no-op. -/
theorem release_idempotent_amended_witness :
    releaseNotification initialArbiterState 5 "manual" =
      (false, initialArbiterState) :=
  (release_idempotent_amended initialArbiterState 5 "manual").1 rfl

/-! ## Confirm-tier Reaction Dispatcher
Embeds the confirm-alert branch chain of
`ZombieDetector._process_detection_results` (detector_core.py):
the count-threshold chain deciding which confirm-tier callback fires,
guarded by the per-bucket `cooldown_timestamps` / `cooldown_periods`. -/

/-- The dispatcher's severity buckets. -/
inductive Severity
  | many
  | warning
  | few
  | presence
deriving DecidableEq, Repr

/-- The severity bucket of a fused detection result, following the
`if count >= 10 / elif count >= 5 / elif count > 0 /
elif count == 0 and resnet_result and resnet_prob > 0.7` chain. -/
def severityBucket (count : Nat) (resnet_result : Bool)
    (resnet_prob : ℚ) : Option Severity :=
  if 10 ≤ count then some Severity.many
  else if 5 ≤ count then some Severity.warning
  else if 0 < count then some Severity.few
  else if count = 0 ∧ resnet_result = true ∧ (7 : ℚ) / 10 < resnet_prob then
    some Severity.presence
  else none

/-- Embeds `self.cooldown_timestamps` (initially few=0, warning=0, many=0). -/
structure CooldownTimestamps where
  few : ℚ
  warning : ℚ
  many : ℚ
deriving DecidableEq, Repr

/-- The confirm-alert dispatch: which confirm-tier callback fires for the
frame (None when no bucket matches or the bucket's cooldown has not
elapsed), and the updated cooldown timestamps. Cooldown periods are
`{"few": 5, "warning": 8, "many": 10}`; the presence branch reuses the
"few" timestamp and period. A fired bucket stamps its timestamp with the
current time. -/
def confirmDispatch (ts : CooldownTimestamps) (now : ℚ) (count : Nat)
    (resnet_result : Bool) (resnet_prob : ℚ) :
    Option Severity × CooldownTimestamps :=
  if 10 ≤ count then
    if 10 < now - ts.many then (some Severity.many, { ts with many := now })
    else (none, ts)
  else if 5 ≤ count then
    if 8 < now - ts.warning then
      (some Severity.warning, { ts with warning := now })
    else (none, ts)
  else if 0 < count then
    if 5 < now - ts.few then (some Severity.few, { ts with few := now })
    else (none, ts)
  else if count = 0 ∧ resnet_result = true ∧ (7 : ℚ) / 10 < resnet_prob then
    if 5 < now - ts.few then (some Severity.presence, { ts with few := now })
    else (none, ts)
  else (none, ts)

/-- C6. The severity bucket is a total, mutually exclusive function of the
fused result: many iff count ≥ 10, warning iff 5 ≤ count ≤ 9, few iff
1 ≤ count ≤ 4, presence iff count = 0 with a positive classifier verdict of
probability > 0.7; and the confirm dispatch selects at most one callback,
always the one of that bucket. -/
theorem severity_bucket_characterization (count : Nat) (resnet_result : Bool)
    (resnet_prob : ℚ) (ts : CooldownTimestamps) (now : ℚ) :
    (severityBucket count resnet_result resnet_prob = some Severity.many ↔
      10 ≤ count) ∧
    (severityBucket count resnet_result resnet_prob = some Severity.warning ↔
      5 ≤ count ∧ count ≤ 9) ∧
    (severityBucket count resnet_result resnet_prob = some Severity.few ↔
      1 ≤ count ∧ count ≤ 4) ∧
    (severityBucket count resnet_result resnet_prob = some Severity.presence ↔
      count = 0 ∧ resnet_result = true ∧ (7 : ℚ) / 10 < resnet_prob) ∧
    ((confirmDispatch ts now count resnet_result resnet_prob).1 = none ∨
      (confirmDispatch ts now count resnet_result resnet_prob).1 =
        severityBucket count resnet_result resnet_prob) := by
  refine ⟨?_, ?_, ?_, ?_, ?_⟩
  · unfold severityBucket
    split_ifs <;> simp_all
  · unfold severityBucket
    split_ifs <;> simp_all <;> omega
  · unfold severityBucket
    split_ifs <;> simp_all <;> omega
  · unfold severityBucket
    split_ifs <;> simp_all <;> omega
  · unfold severityBucket confirmDispatch
    split_ifs <;> simp_all

/-- C5 counterexample: dispatcher per-bucket cooldown at the boundary.
After a "many" dispatch stamped at t = 100 with period P = 10, an attempt
at exactly t + P = 110 with count = 12 (all other conditions satisfied) is
blocked — the code requires strictly more than P seconds, while the claim
says an attempt at t + P is allowed. -/
theorem dispatcher_cooldown_boundary_counterexample :
    (confirmDispatch { few := 0, warning := 0, many := 100 } 110 12
      false 0).1 = none := by
  norm_num [confirmDispatch]

/-- C5 amended: after a grant of a tier at time t with cooldown P, the
Arbiter blocks a same-tier acquisition strictly within t + P and allows it
at or after t + P (other admission conditions satisfied), while the
dispatcher blocks a same-bucket confirm dispatch at or before t + P and
allows it strictly after t + P — proved for the Arbiter over every tier
name, and for the dispatcher for every bucket: many (P = 10), warning
(P = 8), few (P = 5), and presence (P = 5, sharing the "few" timestamp). -/
theorem tier_cooldown_amended (s : ArbiterState) (now t : ℚ) (c : Nat)
    (src dtName : String) (ts : CooldownTimestamps) (count : Nat)
    (resnet_result : Bool) (resnet_prob : ℚ) :
    (¬ now - s.last_notification_time < GLOBAL_NOTIFICATION_INTERVAL →
      s.notification_active = false → sourceBlocked s now src = false →
      s.audio_playing = false →
      lookupTime s.last_notification_by_type dtName = some t →
      ¬ dtName = "" →
      ((tryAcquireNotification s now c src (some dtName)).1.1 = true ↔
        t + typeCooldown dtName ≤ now)) ∧
    (10 ≤ count →
      (((confirmDispatch ts now count resnet_result resnet_prob).1 =
          some Severity.many) ↔ ts.many + 10 < now)) ∧
    (5 ≤ count → count ≤ 9 →
      (((confirmDispatch ts now count resnet_result resnet_prob).1 =
          some Severity.warning) ↔ ts.warning + 8 < now)) ∧
    (1 ≤ count → count ≤ 4 →
      (((confirmDispatch ts now count resnet_result resnet_prob).1 =
          some Severity.few) ↔ ts.few + 5 < now)) ∧
    (count = 0 → resnet_result = true → (7 : ℚ) / 10 < resnet_prob →
      (((confirmDispatch ts now count resnet_result resnet_prob).1 =
          some Severity.presence) ↔ ts.few + 5 < now)) := by
  refine ⟨?_, ?_, ?_, ?_, ?_⟩
  · intro h1 h2 h3 h4 h5 h6
    unfold tryAcquireNotification
    have htb : tierBlocked s now (some dtName) =
        decide (now - t < typeCooldown dtName) := by
      unfold tierBlocked
      simp [h6, h5]
    by_cases hcd : now - t < typeCooldown dtName
    · simp [h1, h2, h3, h4, htb, hcd]
      linarith
    · simp [h1, h2, h3, h4, htb, hcd]
      linarith [not_lt.mp hcd]
  · intro hc
    unfold confirmDispatch
    simp only [hc, if_pos]
    constructor
    · intro hsome
      by_cases hcd : 10 < now - ts.many
      · linarith
      · simp [hcd] at hsome
    · intro hlt
      have hcd : 10 < now - ts.many := by linarith
      simp [hcd]
  · intro h5c h9c
    unfold confirmDispatch
    rw [if_neg (by omega : ¬ 10 ≤ count), if_pos h5c]
    constructor
    · intro hsome
      by_cases hcd : 8 < now - ts.warning
      · linarith
      · simp [hcd] at hsome
    · intro hlt
      have hcd : 8 < now - ts.warning := by linarith
      simp [hcd]
  · intro h1c h4c
    unfold confirmDispatch
    rw [if_neg (by omega : ¬ 10 ≤ count), if_neg (by omega : ¬ 5 ≤ count),
      if_pos (by omega : 0 < count)]
    constructor
    · intro hsome
      by_cases hcd : 5 < now - ts.few
      · linarith
      · simp [hcd] at hsome
    · intro hlt
      have hcd : 5 < now - ts.few := by linarith
      simp [hcd]
  · intro h0 hr hp
    unfold confirmDispatch
    rw [if_neg (by omega : ¬ 10 ≤ count), if_neg (by omega : ¬ 5 ≤ count),
      if_neg (by omega : ¬ 0 < count), if_pos ⟨h0, hr, hp⟩]
    constructor
    · intro hsome
      by_cases hcd : 5 < now - ts.few
      · linarith
      · simp [hcd] at hsome
    · intro hlt
      have hcd : 5 < now - ts.few := by linarith
      simp [hcd]

/-- Concrete instantiations of the amended cooldown theorem across
buckets: a "many" dispatch stamped at t = 100 is allowed again at
t = 111 > t + 10, a "warning" dispatch stamped at t = 100 is still blocked
at t = 108 = t + 8, and a "few" dispatch stamped at t = 100 is allowed
again at t = 106 > t + 5. -/
theorem tier_cooldown_amended_witness :
    (confirmDispatch { few := 0, warning := 0, many := 100 } 111 12
      false 0).1 = some Severity.many ∧
    ¬ (confirmDispatch { few := 0, warning := 100, many := 0 } 108 7
      false 0).1 = some Severity.warning ∧
    (confirmDispatch { few := 100, warning := 0, many := 0 } 106 3
      false 0).1 = some Severity.few :=
  ⟨((tier_cooldown_amended initialArbiterState 111 0 0 "detector" "many"
        { few := 0, warning := 0, many := 100 } 12 false 0).2.1
      (by decide)).mpr (by norm_num),
    fun h => absurd (((tier_cooldown_amended initialArbiterState 108 0 0
        "detector" "warning" { few := 0, warning := 100, many := 0 } 7
        false 0).2.2.1 (by decide) (by decide)).mp h) (by norm_num),
    ((tier_cooldown_amended initialArbiterState 106 0 0 "detector" "few"
        { few := 100, warning := 0, many := 0 } 3 false 0).2.2.2.1
      (by decide) (by decide)).mpr (by norm_num)⟩

/-! ## Performance Governor
Embeds `_adjust_performance_settings` (detector_core.py) over the
module-level `PERFORMANCE_SETTINGS` baseline (performance.py). -/

/-- The baseline produced by `get_performance_settings()`:
frame interval (s), resize factor, skip ratio, CPU threshold (%). -/
structure PerfSettings where
  frame_interval : ℚ
  resize_factor : ℚ
  skip_ratio : Nat
  cpu_threshold : ℚ
deriving DecidableEq, Repr

/-- The defaults of performance.py: `DEFAULT_FRAME_INTERVAL = 0.3`,
`DEFAULT_RESIZE_FACTOR = 0.65`, `DEFAULT_SKIP_RATIO = 1`,
`DEFAULT_CPU_THRESHOLD = 80` (no command-line overrides). -/
def defaultPerfSettings : PerfSettings :=
  { frame_interval := 3 / 10
    resize_factor := 65 / 100
    skip_ratio := 1
    cpu_threshold := 80 }

/-- The range clamping at the end of `get_performance_settings`. -/
def clampSettings (s : PerfSettings) : PerfSettings :=
  { frame_interval := max (1 / 10) (min 10 s.frame_interval)
    resize_factor := max (2 / 10) (min 1 s.resize_factor)
    skip_ratio := max 1 (min 5 s.skip_ratio)
    cpu_threshold := max 50 (min 95 s.cpu_threshold) }

/-- The detector's mutable tuning state: `self.adaptive_interval`,
`self.resize_factor`, `self.skip_ratio`. -/
structure GovernorState where
  adaptive_interval : ℚ
  resize_factor : ℚ
  skip_ratio : Nat
deriving DecidableEq, Repr

/-- The tuning state as initialised in `ZombieDetector.__init__`: all three
values are taken from the baseline. -/
def baselineGovernorState (base : PerfSettings) : GovernorState :=
  { adaptive_interval := base.frame_interval
    resize_factor := base.resize_factor
    skip_ratio := base.skip_ratio }

/-- Embeds `_adjust_performance_settings`: `cpu_sample = none` models
`psutil.cpu_percent` raising (the except branch). Above the threshold the
three values are recomputed from the baseline
(`min(base*1.5, 2.0)`, `max(base*0.8, 0.3)`, `min(base+1, 5)`); at or
below it, and on failure, all three are reset to the baseline. -/
def adjustPerformanceSettings (base : PerfSettings) (s : GovernorState)
    (cpu_sample : Option ℚ) : GovernorState :=
  match cpu_sample with
  | some cpu_percent =>
      if base.cpu_threshold < cpu_percent then
        { adaptive_interval := min (base.frame_interval * (15 / 10)) 2
          resize_factor := max (base.resize_factor * (8 / 10)) (3 / 10)
          skip_ratio := min (base.skip_ratio + 1) 5 }
      else
        { adaptive_interval := base.frame_interval
          resize_factor := base.resize_factor
          skip_ratio := base.skip_ratio }
  | none =>
      { adaptive_interval := base.frame_interval
        resize_factor := base.resize_factor
        skip_ratio := base.skip_ratio }

/-- C7. For every sampled CPU value: above the threshold, the interval
becomes 1.5 × baseline (capped at 2), the resize factor 0.8 × baseline
(floored at 0.3), and the skip ratio baseline + 1 (capped at 5); at or
below the threshold all three are reset exactly to baseline; a sampling
failure resets all three to baseline. Note the current state `s` is never
consulted. -/
theorem governor_tune_contract (base : PerfSettings) (s : GovernorState)
    (cpu : ℚ) :
    (base.cpu_threshold < cpu →
      adjustPerformanceSettings base s (some cpu) =
        { adaptive_interval := min (base.frame_interval * (15 / 10)) 2
          resize_factor := max (base.resize_factor * (8 / 10)) (3 / 10)
          skip_ratio := min (base.skip_ratio + 1) 5 }) ∧
    (cpu ≤ base.cpu_threshold →
      adjustPerformanceSettings base s (some cpu) =
        baselineGovernorState base) ∧
    (adjustPerformanceSettings base s none = baselineGovernorState base) := by
  refine ⟨?_, ?_, ?_⟩
  · intro h
    unfold adjustPerformanceSettings
    simp [h]
  · intro h
    unfold adjustPerformanceSettings baselineGovernorState
    simp [not_lt.mpr h]
  · rfl

/-- Concrete instantiation of the governor contract: with the default
baseline, a 90% CPU sample (above the 80% threshold) yields interval 0.45,
resize factor 0.52, skip ratio 2. -/
theorem governor_tune_contract_witness :
    adjustPerformanceSettings defaultPerfSettings
        (baselineGovernorState defaultPerfSettings) (some 90) =
      { adaptive_interval := 45 / 100
        resize_factor := 52 / 100
        skip_ratio := 2 } := by
  rw [(governor_tune_contract defaultPerfSettings
      (baselineGovernorState defaultPerfSettings) 90).1 (by norm_num
        [defaultPerfSettings])]
  norm_num [defaultPerfSettings]

/-- C8 counterexample: the governor is not strictly monotonic. With the
default baseline (interval 0.3), two consecutive tuning steps at 90% CPU
(above the 80% threshold) leave the interval at 0.45 both times — no strict
increase from the first step to the second — although the 2.0 cap has not
been reached; likewise the resize factor stays at 0.52 above its 0.3
floor. -/
theorem governor_not_strictly_monotonic :
    (adjustPerformanceSettings defaultPerfSettings
        (adjustPerformanceSettings defaultPerfSettings
          (baselineGovernorState defaultPerfSettings) (some 90))
        (some 90)).adaptive_interval =
      (adjustPerformanceSettings defaultPerfSettings
        (baselineGovernorState defaultPerfSettings)
        (some 90)).adaptive_interval ∧
    (adjustPerformanceSettings defaultPerfSettings
        (baselineGovernorState defaultPerfSettings)
        (some 90)).adaptive_interval < 2 ∧
    (adjustPerformanceSettings defaultPerfSettings
        (adjustPerformanceSettings defaultPerfSettings
          (baselineGovernorState defaultPerfSettings) (some 90))
        (some 90)).resize_factor =
      (adjustPerformanceSettings defaultPerfSettings
        (baselineGovernorState defaultPerfSettings)
        (some 90)).resize_factor ∧
    (3 : ℚ) / 10 <
      (adjustPerformanceSettings defaultPerfSettings
        (baselineGovernorState defaultPerfSettings)
        (some 90)).resize_factor := by
  norm_num [adjustPerformanceSettings, baselineGovernorState,
    defaultPerfSettings]

/-- C8 amended: the adjustment is computed from the baseline, not the
current value, so the first above-threshold step strictly increases the
interval (when the baseline is positive and below the 2-second cap) and
strictly decreases the resize factor (when the baseline is above the 0.3
floor); every further consecutive above-threshold step leaves the state
unchanged; and a subsequent step with CPU at or below the threshold
reverts all settings exactly to the baseline. -/
theorem governor_monotonic_amended (base : PerfSettings)
    (s s2 : GovernorState) (cpu1 cpu2 : ℚ) :
    (base.cpu_threshold < cpu1 → base.cpu_threshold < cpu2 →
      adjustPerformanceSettings base
          (adjustPerformanceSettings base s (some cpu1)) (some cpu2) =
        adjustPerformanceSettings base s (some cpu1)) ∧
    (base.cpu_threshold < cpu1 → 0 < base.frame_interval →
      base.frame_interval < 2 →
      base.frame_interval <
        (adjustPerformanceSettings base s (some cpu1)).adaptive_interval) ∧
    (base.cpu_threshold < cpu1 → 3 / 10 < base.resize_factor →
      (adjustPerformanceSettings base s (some cpu1)).resize_factor <
        base.resize_factor) ∧
    (cpu2 ≤ base.cpu_threshold →
      adjustPerformanceSettings base s2 (some cpu2) =
        baselineGovernorState base) := by
  refine ⟨?_, ?_, ?_, ?_⟩
  · intro h1 h2
    unfold adjustPerformanceSettings
    simp [h1, h2]
  · intro h1 hpos hcap
    unfold adjustPerformanceSettings
    simp only [h1, if_pos]
    have hi : base.frame_interval < base.frame_interval * (15 / 10) := by
      nlinarith
    exact lt_min hi hcap
  · intro h1 hfloor
    unfold adjustPerformanceSettings
    simp only [h1, if_pos]
    have hr : base.resize_factor * (8 / 10) < base.resize_factor := by
      nlinarith
    exact max_lt hr hfloor
  · intro h2
    unfold adjustPerformanceSettings baselineGovernorState
    simp [not_lt.mpr h2]

/-- Concrete instantiation of the amended governor theorem: from the
default baseline, the first above-threshold step raises the interval above
0.3, and a following at-threshold step reverts to the baseline. -/
theorem governor_monotonic_amended_witness :
    (3 : ℚ) / 10 <
      (adjustPerformanceSettings defaultPerfSettings
        (baselineGovernorState defaultPerfSettings)
        (some 90)).adaptive_interval ∧
    adjustPerformanceSettings defaultPerfSettings
        (baselineGovernorState defaultPerfSettings) (some 80) =
      baselineGovernorState defaultPerfSettings := by
  constructor
  · have h := (governor_monotonic_amended defaultPerfSettings
      (baselineGovernorState defaultPerfSettings)
      (baselineGovernorState defaultPerfSettings) 90 80).2.1
      (by norm_num [defaultPerfSettings]) (by norm_num [defaultPerfSettings])
      (by norm_num [defaultPerfSettings])
    simpa [defaultPerfSettings] using h
  · exact (governor_monotonic_amended defaultPerfSettings
      (baselineGovernorState defaultPerfSettings)
      (baselineGovernorState defaultPerfSettings) 90 80).2.2.2 le_rfl

/-! ## Monitoring loop control flow
Embeds the `while self.is_monitoring: try ... except` skeleton of
`ZombieDetector._monitor_loop` (detector_core.py). Each iteration is
abstracted by the event it encounters; the stop flag is sampled at the top
of each iteration. -/

/-- What one loop iteration encounters. -/
inductive LoopEvent
  | skipped
  | cancelled
  | raisedError
  | captureFail
  | detectFail
  | frame (count : Nat) (resnet_result : Bool) (resnet_prob : ℚ)
deriving DecidableEq, Repr

/-- How one iteration ends: sleep for a backoff and run the next
iteration, or leave the loop. -/
inductive StepOutcome
  | continueAfter (backoff : ℚ)
  | exitLoop
deriving DecidableEq, Repr

/-- One iteration body of `_monitor_loop`: a skipped frame sleeps 0.1 s; a
`CancelledError` breaks out; any other exception is caught and followed by
`asyncio.sleep(2)`; a failed capture (`screenshot is None`) sleeps 1 s and
continues; a failed detection (`results is None`) and a processed frame
sleep `self.adaptive_interval`. -/
def monitorStep (adaptive_interval : ℚ) (ev : LoopEvent) : StepOutcome :=
  match ev with
  | LoopEvent.skipped => StepOutcome.continueAfter (1 / 10)
  | LoopEvent.cancelled => StepOutcome.exitLoop
  | LoopEvent.raisedError => StepOutcome.continueAfter 2
  | LoopEvent.captureFail => StepOutcome.continueAfter 1
  | LoopEvent.detectFail => StepOutcome.continueAfter adaptive_interval
  | LoopEvent.frame _ _ _ => StepOutcome.continueAfter adaptive_interval

/-- The `while self.is_monitoring` loop over a trace of (stop-flag value at
the top of the iteration, event inside the iteration), returning the
backoffs of the iterations actually run. The loop ends when the flag is
false, on cancellation, or at the end of the trace. -/
def monitorLoop (adaptive_interval : ℚ) :
    List (Bool × LoopEvent) → List ℚ
  | [] => []
  | (monitoring, ev) :: rest =>
      if monitoring then
        match monitorStep adaptive_interval ev with
        | StepOutcome.continueAfter b =>
            b :: monitorLoop adaptive_interval rest
        | StepOutcome.exitLoop => []
      else []

/-- C9. The monitoring loop terminates only on explicit cancellation or a
false stop flag: over any trace in which the flag stays true and no
cancellation occurs, every iteration runs (no event — capture failure,
detection failure, or a raised exception — ends the loop); a capture
failure is followed by a 1 s backoff, a caught exception by a 2 s backoff
(longer than the capture backoff); and a cancellation or a false stop flag
does end the loop at once. -/
theorem monitor_loop_runs_through (adaptive_interval : ℚ)
    (trace : List (Bool × LoopEvent)) :
    ((∀ p ∈ trace, p.1 = true ∧ p.2 ≠ LoopEvent.cancelled) →
      (monitorLoop adaptive_interval trace).length = trace.length) ∧
    (monitorStep adaptive_interval LoopEvent.captureFail =
      StepOutcome.continueAfter 1) ∧
    (monitorStep adaptive_interval LoopEvent.raisedError =
      StepOutcome.continueAfter 2) ∧
    ((1 : ℚ) < 2) ∧
    (∀ rest, monitorLoop adaptive_interval
        ((true, LoopEvent.cancelled) :: rest) = []) ∧
    (∀ ev rest, monitorLoop adaptive_interval ((false, ev) :: rest) = []) := by
  refine ⟨?_, rfl, rfl, by norm_num, ?_, ?_⟩
  · intro h
    induction trace with
    | nil => rfl
    | cons hd tl ih =>
      obtain ⟨flag, ev⟩ := hd
      have hhd := h (flag, ev) (List.mem_cons_self _ _)
      have htl : ∀ p ∈ tl, p.1 = true ∧ p.2 ≠ LoopEvent.cancelled :=
        fun p hp => h p (List.mem_cons_of_mem _ hp)
      simp only at hhd
      rw [hhd.1] at *
      cases ev with
      | cancelled => exact absurd rfl hhd.2
      | skipped => simp [monitorLoop, monitorStep, ih htl]
      | raisedError => simp [monitorLoop, monitorStep, ih htl]
      | captureFail => simp [monitorLoop, monitorStep, ih htl]
      | detectFail => simp [monitorLoop, monitorStep, ih htl]
      | frame c r p => simp [monitorLoop, monitorStep, ih htl]
  · intro rest
    rfl
  · intro ev rest
    rfl

/-- Concrete instantiation of the loop theorem: a trace with a capture
failure, a raised exception and a detection failure runs all five
iterations. -/
theorem monitor_loop_runs_through_witness :
    (monitorLoop (3 / 10)
      [(true, LoopEvent.frame 2 false 0), (true, LoopEvent.captureFail),
        (true, LoopEvent.raisedError), (true, LoopEvent.detectFail),
        (true, LoopEvent.skipped)]).length = 5 :=
  (monitor_loop_runs_through (3 / 10)
      [(true, LoopEvent.frame 2 false 0), (true, LoopEvent.captureFail),
        (true, LoopEvent.raisedError), (true, LoopEvent.detectFail),
        (true, LoopEvent.skipped)]).1 (by decide)

/-! ## Immediate-tier voice reaction
Embeds the `reaction_type == "immediate"` branch of `react_to_zombie`
(app/voice/engine.py) and the guard in `_process_detection_results` that
triggers it only for a positive detection count. -/

/-- The preset voices used by the immediate tier. -/
inductive Preset
  | gasp
  | altu
  | sigh
deriving DecidableEq, Repr

/-- The immediate branch of `react_to_zombie(count, distance,
"immediate", resnet_result, resnet_prob)`: preset by count alone
(`count >= 10` gasp, `count >= 5` altu, `count > 0` sigh, otherwise no
playback); the classifier arguments are ignored at this tier. -/
def reactToZombieImmediate (count : Nat) (resnet_result : Bool)
    (resnet_prob : ℚ) : Option Preset :=
  if 10 ≤ count then some Preset.gasp
  else if 5 ≤ count then some Preset.altu
  else if 0 < count then some Preset.sigh
  else none

/-- The trigger in `_process_detection_results`: the immediate reaction is
invoked only under `if count > 0`. -/
def immediateTrigger (count : Nat) (resnet_result : Bool)
    (resnet_prob : ℚ) : Option Preset :=
  if 0 < count then reactToZombieImmediate count resnet_result resnet_prob
  else none

/-- C10. With count = 0 the immediate tier produces no voice output,
whatever the classifier verdict and probability — there is no presence
branch at this tier — and the monitoring loop's immediate trigger is
likewise silent at count = 0; in general the immediate tier plays a preset
iff count ≥ 1. -/
theorem immediate_reaction_silent_on_zero (count : Nat)
    (resnet_result : Bool) (resnet_prob : ℚ) :
    (reactToZombieImmediate 0 resnet_result resnet_prob = none) ∧
    (immediateTrigger 0 resnet_result resnet_prob = none) ∧
    ((reactToZombieImmediate count resnet_result resnet_prob).isSome =
      true ↔ 1 ≤ count) := by
  refine ⟨rfl, rfl, ?_⟩
  unfold reactToZombieImmediate
  split_ifs <;> simp_all <;> omega

end Hisyotan
